import Mathlib

/-!
Verification of the bootstrap-and-rollout decision engine of the
cluster-network-operator (`pkg/network/ovn_kubernetes.go`).

The Go source is shallowly embedded: daemonsets are records of the fields the
decision functions read (annotations, generation, rollout status counters),
Kubernetes string maps become association lists, and each decision function
becomes a computable Lean function translated branch-for-branch from the Go.
Counters (`DesiredNumberScheduled` etc.) are `int32` counts in Go and are
modelled as `Nat`; the one floating-point expression in the source,
`math.Floor(float64(desired)*0.1)`, equals the integer division `desired / 10`
for every value in the `int32` range (the relative error of the double
constant 0.1 is far below half an ulp of the product there), so it is embedded
as `desired / 10`.
-/

namespace OVNK

/-- Annotation keys and IP-family-mode values used by the decision functions.
They live in the operator's `pkg/names` package (outside the embedded file);
only their identity and distinctness matter to the decision logic, so they are
embedded as the literal strings the names package defines. -/
def releaseVersionAnnoKey : String := "release.openshift.io/version"

/-- Key of the persisted IP-family-mode marker (`names.NetworkIPFamilyModeAnnotation`). -/
def ipFamilyModeAnnoKey : String := "networkoperator.openshift.io/ip-family-mode"

/-- Key of the hang marker (`names.RolloutHungAnnotation`). -/
def rolloutHungAnnoKey : String := "networkoperator.openshift.io/rollout-hung"

/-- Key of the persisted initiator annotation (`names.OVNRaftClusterInitiator`). -/
def raftClusterInitiatorKey : String := "networkoperator.openshift.io/ovn-cluster-initiator"

/-- Value `names.IPFamilySingleStack`. -/
def IPFamilySingleStack : String := "single-stack"

/-- Value `names.IPFamilyDualStack`. -/
def IPFamilyDualStack : String := "dual-stack"

/-- The rollout status counters of a daemonset
(`appsv1.DaemonSetStatus`, restricted to the fields `daemonSetProgressing`
reads). Go's `int32`/`int64` fields hold non-negative counts and generations
here, modelled as `Nat`. -/
structure DaemonSetStatus where
  desiredNumberScheduled : Nat
  updatedNumberScheduled : Nat
  numberUnavailable : Nat
  numberAvailable : Nat
  observedGeneration : Nat
deriving DecidableEq, Repr

/-- A daemonset, restricted to the fields the decision functions read:
its annotation map (a Go `map[string]string`, embedded as an association
list), its object generation and its status. -/
structure DaemonSet where
  annotations : List (String × String)
  generation : Nat
  status : DaemonSetStatus
deriving DecidableEq, Repr

/-- Go map indexing `m[k]` on a `map[string]string`: the stored value, or the
zero value `""` when the key is absent. -/
def getAnno (ds : DaemonSet) (key : String) : String :=
  (ds.annotations.lookup key).getD ""

/-- Go two-result map indexing `_, ok := m[k]`: whether the key is present. -/
def hasAnno (ds : DaemonSet) (key : String) : Bool :=
  (ds.annotations.lookup key).isSome

/-- Embeds `daemonSetProgressing` (ovn_kubernetes.go lines 976-1010): a daemonset is
rolling out a change when updated < desired, or some replicas are unavailable,
or none are available, or the object generation is ahead of the observed one;
with `allowHung` set, a rollout that is hung (hang marker present) with at
most `max 1 (desired / 10)` replicas behind is treated as complete. -/
def daemonSetProgressing (ds : DaemonSet) (allowHung : Bool) : Bool :=
  let status := ds.status
  let progressing :=
    decide (status.updatedNumberScheduled < status.desiredNumberScheduled) ||
    decide (status.numberUnavailable > 0) ||
    decide (status.numberAvailable = 0) ||
    decide (ds.generation > status.observedGeneration)
  if !progressing then
    false
  else if allowHung then
    let hung := hasAnno ds rolloutHungAnnoKey
    let maxBehind := max 1 (status.desiredNumberScheduled / 10)
    let numBehind := status.desiredNumberScheduled - status.updatedNumberScheduled
    if hung && decide (numBehind ≤ maxBehind) then false else true
  else
    true

/-- The four-way version delta returned by the repository's `compareVersions`
(its `versionUpgrade` / `versionSame` / `versionDowngrade` / `versionUnknown`
constants). -/
inductive VersionDelta where
  | upgrade
  | same
  | downgrade
  | unknown
deriving DecidableEq, Repr

/-- Embeds `shouldUpdateOVNKonUpgrade` (ovn_kubernetes.go lines 889-972), the version
skew state machine. `compareVersions` lives outside the embedded file, so the
classifier is passed in as the function argument `cmp`; the state machine only
inspects its four-way result. Returns `(updateNode, updateMaster)`. -/
def shouldUpdateOVNKonUpgrade (cmp : String → String → VersionDelta)
    (existingNode existingMaster : Option DaemonSet)
    (releaseVersion : String) : Bool × Bool :=
  match existingNode, existingMaster with
  | none, _ => (true, true)
  | _, none => (true, true)
  | some node, some master =>
    let nodeVersion := getAnno node releaseVersionAnnoKey
    let masterVersion := getAnno master releaseVersionAnnoKey
    if nodeVersion == releaseVersion && masterVersion == releaseVersion then
      (true, true)
    else
      let masterDelta := cmp masterVersion releaseVersion
      let nodeDelta := cmp nodeVersion releaseVersion
      if masterDelta == .unknown || nodeDelta == .unknown then
        (true, true)
      else if masterDelta == .upgrade && nodeDelta == .upgrade then
        (true, false)
      else if masterDelta == .upgrade && nodeDelta == .same then
        if daemonSetProgressing node true then (true, false) else (true, true)
      else if masterDelta == .downgrade && nodeDelta == .downgrade then
        (false, true)
      else if masterDelta == .same && nodeDelta == .downgrade then
        if daemonSetProgressing master false then (false, true) else (true, true)
      else if masterDelta == .same && nodeDelta == .same then
        (true, true)
      else
        (true, true)

/-- The §4.3 ordering table as the spec states it: rows are the node delta,
columns the master delta, cells are `(updateNode, updateMaster)`; any pair
containing Unknown and every illegal cell fails open to `(true, true)`.
The progress checks of the two waiting cells are taken as the booleans
`nodeProgressing` (node tier, allowHung = true) and `masterProgressing`
(master tier, allowHung = false). -/
def sequencerTable (nodeDelta masterDelta : VersionDelta)
    (nodeProgressing masterProgressing : Bool) : Bool × Bool :=
  match nodeDelta, masterDelta with
  | .unknown, _ => (true, true)
  | _, .unknown => (true, true)
  | .upgrade, .upgrade => (true, false)
  | .same, .upgrade => if nodeProgressing then (true, false) else (true, true)
  | .same, .same => (true, true)
  | .downgrade, .same => if masterProgressing then (false, true) else (true, true)
  | .downgrade, .downgrade => (false, true)
  | .upgrade, .same => (true, true)
  | .upgrade, .downgrade => (true, true)
  | .same, .downgrade => (true, true)
  | .downgrade, .upgrade => (true, true)

end OVNK

namespace OVNK

/-- The base progressing condition of §4.5, stated in the spec's terms. -/
def baseProgressing (ds : DaemonSet) : Bool :=
  decide (ds.status.updatedNumberScheduled < ds.status.desiredNumberScheduled) ||
  decide (ds.status.numberUnavailable > 0) ||
  decide (ds.status.numberAvailable = 0) ||
  decide (ds.generation > ds.status.observedGeneration)

/-- The hang escape of §4.5, stated in the spec's terms: it applies only when
`allowHung` is set, a hang marker is present, and the number of replicas still
behind is at most `max 1 (floor (desired * 0.1))` (= `desired / 10`). -/
def hangEscape (ds : DaemonSet) (allowHung : Bool) : Bool :=
  allowHung && hasAnno ds rolloutHungAnnoKey &&
    decide (ds.status.desiredNumberScheduled - ds.status.updatedNumberScheduled ≤
      max 1 (ds.status.desiredNumberScheduled / 10))

end OVNK

namespace OVNK

/-- C1: for every version classifier `cmp`, every pair of existing (non-fresh)
tiers that are not both already at the desired release version, and every
release version, the sequencer returns exactly the cell of the §4.3 ordering
table at `(nodeDelta, masterDelta)`, with the waiting cells resolved by the
hang-tolerant progress check on the already-moving tier. -/
theorem sequencer_matches_ordering_table
    (cmp : String → String → VersionDelta) (node master : DaemonSet)
    (releaseVersion : String)
    (hne : ¬(getAnno node releaseVersionAnnoKey = releaseVersion ∧
             getAnno master releaseVersionAnnoKey = releaseVersion)) :
    shouldUpdateOVNKonUpgrade cmp (some node) (some master) releaseVersion =
      sequencerTable (cmp (getAnno node releaseVersionAnnoKey) releaseVersion)
        (cmp (getAnno master releaseVersionAnnoKey) releaseVersion)
        (daemonSetProgressing node true) (daemonSetProgressing master false) := by
  unfold shouldUpdateOVNKonUpgrade sequencerTable
  have hshort : (getAnno node releaseVersionAnnoKey == releaseVersion &&
      (getAnno master releaseVersionAnnoKey == releaseVersion)) = false := by
    rcases h1 : getAnno node releaseVersionAnnoKey == releaseVersion with _ | _
    · simp
    · rcases h2 : getAnno master releaseVersionAnnoKey == releaseVersion with _ | _
      · simp [h2]
      · exact absurd ⟨eq_of_beq h1, eq_of_beq h2⟩ hne
  simp only [hshort, Bool.false_eq_true, if_false]
  rcases hnd : cmp (getAnno node releaseVersionAnnoKey) releaseVersion with _ | _ | _ | _ <;>
    rcases hmd : cmp (getAnno master releaseVersionAnnoKey) releaseVersion with _ | _ | _ | _ <;>
    rcases hp1 : daemonSetProgressing node true with _ | _ <;>
    rcases hp2 : daemonSetProgressing master false with _ | _ <;>
    simp [hnd, hmd, hp1, hp2]

/-- Witness for C1 at a concrete input: node at "4.10.0", master at "4.10.0",
desired "4.11.0", each classified as an upgrade, node tier not progressing. -/
theorem sequencer_matches_ordering_table_witness :
    (¬(getAnno ⟨[("release.openshift.io/version", "4.10.0")], 0, ⟨3, 3, 0, 3, 0⟩⟩
          releaseVersionAnnoKey = "4.11.0" ∧
       getAnno ⟨[("release.openshift.io/version", "4.10.0")], 0, ⟨3, 3, 0, 3, 0⟩⟩
          releaseVersionAnnoKey = "4.11.0")) ∧
    shouldUpdateOVNKonUpgrade (fun _ _ => VersionDelta.upgrade)
      (some ⟨[("release.openshift.io/version", "4.10.0")], 0, ⟨3, 3, 0, 3, 0⟩⟩)
      (some ⟨[("release.openshift.io/version", "4.10.0")], 0, ⟨3, 3, 0, 3, 0⟩⟩)
      "4.11.0" = (true, false) := by
  refine ⟨by decide, ?_⟩
  have h := sequencer_matches_ordering_table (fun _ _ => VersionDelta.upgrade)
    ⟨[("release.openshift.io/version", "4.10.0")], 0, ⟨3, 3, 0, 3, 0⟩⟩
    ⟨[("release.openshift.io/version", "4.10.0")], 0, ⟨3, 3, 0, 3, 0⟩⟩
    "4.11.0" (by decide)
  rw [h]
  rfl

/-- C2: the Progress Evaluator returns true iff the base condition holds and
the hang escape does not apply, where the escape needs `allowHung`, a present
hang marker, and at most `max 1 (desired / 10)` replicas behind; in
particular at desired = 10 it tolerates 1 replica behind (hung, allowHung ⇒
not progressing) but not 2 (still progressing). -/
theorem progress_evaluator_characterization (ds : DaemonSet) (allowHung : Bool) :
    daemonSetProgressing ds allowHung = (baseProgressing ds && !(hangEscape ds allowHung)) ∧
    (ds.status.desiredNumberScheduled = 10 → ds.status.updatedNumberScheduled = 9 →
      hasAnno ds rolloutHungAnnoKey = true → daemonSetProgressing ds true = false) ∧
    (ds.status.desiredNumberScheduled = 10 → ds.status.updatedNumberScheduled = 8 →
      daemonSetProgressing ds true = true) := by
  have hchar : ∀ aH : Bool,
      daemonSetProgressing ds aH = (baseProgressing ds && !(hangEscape ds aH)) := by
    intro aH
    simp only [daemonSetProgressing, baseProgressing, hangEscape]
    by_cases h1 : ds.status.updatedNumberScheduled < ds.status.desiredNumberScheduled <;>
    by_cases h2 : ds.status.numberUnavailable > 0 <;>
    by_cases h3 : ds.status.numberAvailable = 0 <;>
    by_cases h4 : ds.generation > ds.status.observedGeneration <;>
    by_cases h5 : ds.status.desiredNumberScheduled - ds.status.updatedNumberScheduled ≤
        max 1 (ds.status.desiredNumberScheduled / 10) <;>
    cases hH : hasAnno ds rolloutHungAnnoKey <;>
    cases aH <;>
    simp [h1, h2, h3, h4, h5, hH]
  refine ⟨hchar allowHung, ?_, ?_⟩
  · intro hd hu hH
    rw [hchar true]
    simp [baseProgressing, hangEscape, hd, hu, hH]
  · intro hd hu
    rw [hchar true]
    simp [baseProgressing, hangEscape, hd, hu]

/-- Witness for C2: a daemonset with desired = 10, updated = 9, hang marker
present, evaluated with allowHung = true, is reported as not progressing. -/
theorem progress_evaluator_characterization_witness :
    daemonSetProgressing
      ⟨[("networkoperator.openshift.io/rollout-hung", "")], 0, ⟨10, 9, 0, 9, 0⟩⟩
      true = false := by
  exact (progress_evaluator_characterization
      ⟨[("networkoperator.openshift.io/rollout-hung", "")], 0, ⟨10, 9, 0, 9, 0⟩⟩
      true).2.1 rfl rfl (by decide)

/-- Embeds `shouldUpdateOVNKonPrepull` (ovn_kubernetes.go lines 848-884), the prepull
stager. Returns `(updateNode, renderPrepull)`. -/
def shouldUpdateOVNKonPrepull (existingNode prePuller : Option DaemonSet)
    (releaseVersion : String) : Bool × Bool :=
  match existingNode with
  | none => (true, false)
  | some node =>
    let existingNodeVersion := getAnno node releaseVersionAnnoKey
    if existingNodeVersion == releaseVersion then
      (true, false)
    else
      match prePuller with
      | none => (false, true)
      | some pp =>
        let existingPrePullerVersion := getAnno pp releaseVersionAnnoKey
        if existingPrePullerVersion != releaseVersion then
          (false, true)
        else if daemonSetProgressing pp true then
          (false, true)
        else
          (true, false)

/-- The Prepull Stager contract of §4.4 as the claim enumerates it:
fresh cluster ⇒ (true, false); node already at the desired version ⇒
(true, false); node needs an update and no prepull workload ⇒ (false, true);
prepull at the wrong version ⇒ (false, true); prepull at the desired version
but still progressing (hang-tolerant) ⇒ (false, true); otherwise (complete or
hung-but-tolerated) ⇒ (true, false). -/
def prepullStagerSpec (existingNode prePuller : Option DaemonSet)
    (desiredVersion : String) : Bool × Bool :=
  match existingNode with
  | none => (true, false)
  | some node =>
    if getAnno node releaseVersionAnnoKey = desiredVersion then
      (true, false)
    else
      match prePuller with
      | none => (false, true)
      | some pp =>
        if getAnno pp releaseVersionAnnoKey ≠ desiredVersion then
          (false, true)
        else if daemonSetProgressing pp true then
          (false, true)
        else
          (true, false)

/-- C4: the prepull stager agrees with the §4.4 contract on every input. -/
theorem prepull_stager_matches_spec (existingNode prePuller : Option DaemonSet)
    (releaseVersion : String) :
    shouldUpdateOVNKonPrepull existingNode prePuller releaseVersion =
      prepullStagerSpec existingNode prePuller releaseVersion := by
  cases existingNode with
  | none => rfl
  | some node =>
    cases prePuller with
    | none =>
      by_cases h1 : getAnno node releaseVersionAnnoKey = releaseVersion <;>
        simp [shouldUpdateOVNKonPrepull, prepullStagerSpec, h1]
    | some pp =>
      by_cases h1 : getAnno node releaseVersionAnnoKey = releaseVersion <;>
      by_cases h2 : getAnno pp releaseVersionAnnoKey = releaseVersion <;>
      cases hp : daemonSetProgressing pp true <;>
        simp [shouldUpdateOVNKonPrepull, prepullStagerSpec, h1, h2, hp]

/-- Embeds `shouldUpdateOVNKonIPFamilyChange` (ovn_kubernetes.go lines 813-841), the
IP-family migration gate. Returns `(updateNode, updateMaster)`. -/
def shouldUpdateOVNKonIPFamilyChange (existingNode existingMaster : Option DaemonSet)
    (ipFamilyMode : String) : Bool × Bool :=
  match existingNode, existingMaster with
  | none, _ => (true, true)
  | _, none => (true, true)
  | some node, some master =>
    let nodeIPFamilyMode := getAnno node ipFamilyModeAnnoKey
    let masterIPFamilyMode := getAnno master ipFamilyModeAnnoKey
    if nodeIPFamilyMode == "" || masterIPFamilyMode == "" then
      (true, true)
    else if nodeIPFamilyMode == ipFamilyMode && masterIPFamilyMode == ipFamilyMode then
      (true, true)
    else if masterIPFamilyMode != ipFamilyMode then
      (false, true)
    else if daemonSetProgressing master false then
      (false, true)
    else
      (true, true)

/-- The IP-Family Migration Gate contract of §4.6 as the claim enumerates it:
(true, true) when either tier is absent, or either tier is unmarked, or both
are already marked with the desired mode; (false, true) when the master's
marker differs from the desired mode; (false, true) when the master is
converted but still progressing (allowHung = false) and the node is not
converted; (true, true) when the master is converted and settled and only the
node remains. -/
def ipFamilyGateSpec (existingNode existingMaster : Option DaemonSet)
    (desiredMode : String) : Bool × Bool :=
  match existingNode, existingMaster with
  | none, _ => (true, true)
  | _, none => (true, true)
  | some node, some master =>
    let nodeMode := getAnno node ipFamilyModeAnnoKey
    let masterMode := getAnno master ipFamilyModeAnnoKey
    if nodeMode = "" ∨ masterMode = "" then
      (true, true)
    else if nodeMode = desiredMode ∧ masterMode = desiredMode then
      (true, true)
    else if masterMode ≠ desiredMode then
      (false, true)
    else if daemonSetProgressing master false then
      (false, true)
    else
      (true, true)

/-- The gate only ever answers permit-both or master-only. -/
theorem ip_family_gate_output_cases (existingNode existingMaster : Option DaemonSet)
    (ipFamilyMode : String) :
    shouldUpdateOVNKonIPFamilyChange existingNode existingMaster ipFamilyMode = (true, true) ∨
    shouldUpdateOVNKonIPFamilyChange existingNode existingMaster ipFamilyMode = (false, true) := by
  cases existingNode with
  | none => cases existingMaster <;> exact Or.inl rfl
  | some node =>
    cases existingMaster with
    | none => exact Or.inl rfl
    | some master =>
      simp only [shouldUpdateOVNKonIPFamilyChange]
      split
      · exact Or.inl rfl
      · split
        · exact Or.inl rfl
        · split
          · exact Or.inr rfl
          · split
            · exact Or.inr rfl
            · exact Or.inl rfl

/-- The desired IP-family mode as `renderOVNKubernetes` derives it
(ovn_kubernetes.go lines 265-269): dual-stack exactly when the service
network has two entries, single-stack otherwise. -/
def ipFamilyModeOf (serviceNetwork : List String) : String :=
  if serviceNetwork.length == 2 then IPFamilyDualStack else IPFamilySingleStack

/-- The per-pass rollout decision produced by `renderOVNKubernetes`:
which tiers may be updated, and whether the prepull workload is rendered. -/
structure RolloutDecision where
  updateNode : Bool
  updateMaster : Bool
  renderPrepull : Bool
deriving DecidableEq, Repr

/-- The decision core of `renderOVNKubernetes` (ovn_kubernetes.go lines
67-310, restricted to the control flow that computes `updateNode`,
`updateMaster` and `renderPrePull`; manifest templating is an external
collaborator and not modelled). An externally hosted control plane aborts the
pass before any decision is made. Otherwise the IP-family gate runs first,
the version-skew sequencer runs only when the gate permitted both tiers, and
the prepull stager runs only when the node update is still permitted. -/
def renderOVNKDecision (cmp : String → String → VersionDelta)
    (externalControlPlane : Bool) (serviceNetwork : List String)
    (existingNode existingMaster prePuller : Option DaemonSet)
    (releaseVersion : String) : Except String RolloutDecision :=
  if externalControlPlane then
    .error "Unable to render OVN in a cluster with an external control plane"
  else
    let ipFamilyMode := ipFamilyModeOf serviceNetwork
    let p1 := shouldUpdateOVNKonIPFamilyChange existingNode existingMaster ipFamilyMode
    let p2 :=
      if p1.2 && p1.1 then
        shouldUpdateOVNKonUpgrade cmp existingNode existingMaster releaseVersion
      else p1
    let q :=
      if p2.1 then shouldUpdateOVNKonPrepull existingNode prePuller releaseVersion
      else (p2.1, false)
    .ok ⟨q.1, p2.2, q.2⟩

/-- C3: the IP-family migration gate agrees with the §4.6 contract on every
input, and whenever it answers anything other than permit-both, that answer
is master-only and it alone (with no prepull render) is the pass's rollout
decision — the version-skew sequencer is never consulted (the conclusion
holds for every classifier `cmp`). -/
theorem ip_family_gate_characterization :
    (∀ (existingNode existingMaster : Option DaemonSet) (desiredMode : String),
      shouldUpdateOVNKonIPFamilyChange existingNode existingMaster desiredMode =
        ipFamilyGateSpec existingNode existingMaster desiredMode) ∧
    (∀ (cmp : String → String → VersionDelta) (serviceNetwork : List String)
        (existingNode existingMaster prePuller : Option DaemonSet)
        (releaseVersion : String),
      shouldUpdateOVNKonIPFamilyChange existingNode existingMaster
          (ipFamilyModeOf serviceNetwork) ≠ (true, true) →
      shouldUpdateOVNKonIPFamilyChange existingNode existingMaster
          (ipFamilyModeOf serviceNetwork) = (false, true) ∧
      renderOVNKDecision cmp false serviceNetwork existingNode existingMaster
          prePuller releaseVersion = Except.ok ⟨false, true, false⟩) := by
  constructor
  · intro existingNode existingMaster desiredMode
    cases existingNode with
    | none => cases existingMaster <;> rfl
    | some node =>
      cases existingMaster with
      | none => rfl
      | some master =>
        by_cases h1 : getAnno node ipFamilyModeAnnoKey = "" <;>
        by_cases h2 : getAnno master ipFamilyModeAnnoKey = "" <;>
        by_cases h3 : getAnno node ipFamilyModeAnnoKey = desiredMode <;>
        by_cases h4 : getAnno master ipFamilyModeAnnoKey = desiredMode <;>
        cases hp : daemonSetProgressing master false <;>
          simp [shouldUpdateOVNKonIPFamilyChange, ipFamilyGateSpec, h1, h2, h3, h4, hp]
  · intro cmp serviceNetwork existingNode existingMaster prePuller releaseVersion hne
    have hg : shouldUpdateOVNKonIPFamilyChange existingNode existingMaster
        (ipFamilyModeOf serviceNetwork) = (false, true) := by
      rcases ip_family_gate_output_cases existingNode existingMaster
        (ipFamilyModeOf serviceNetwork) with h | h
      · exact absurd h hne
      · exact h
    refine ⟨hg, ?_⟩
    simp [renderOVNKDecision, hg]

/-- Witness for C3: node and master both marked single-stack, desired mode
dual-stack (two service networks): the gate answers master-only and the pass
decision is exactly (updateNode = false, updateMaster = true,
renderPrepull = false), for a classifier that would otherwise demand a node
upgrade. -/
theorem ip_family_gate_characterization_witness :
    renderOVNKDecision (fun _ _ => VersionDelta.upgrade) false
      ["10.0.0.0/16", "fd00::/64"]
      (some ⟨[("networkoperator.openshift.io/ip-family-mode", "single-stack")], 0, ⟨3, 3, 0, 3, 0⟩⟩)
      (some ⟨[("networkoperator.openshift.io/ip-family-mode", "single-stack")], 0, ⟨3, 3, 0, 3, 0⟩⟩)
      none "4.11.0" = Except.ok ⟨false, true, false⟩ :=
  (ip_family_gate_characterization.2 (fun _ _ => VersionDelta.upgrade)
    ["10.0.0.0/16", "fd00::/64"]
    (some ⟨[("networkoperator.openshift.io/ip-family-mode", "single-stack")], 0, ⟨3, 3, 0, 3, 0⟩⟩)
    (some ⟨[("networkoperator.openshift.io/ip-family-mode", "single-stack")], 0, ⟨3, 3, 0, 3, 0⟩⟩)
    none "4.11.0" (by decide)).2

/-- C7: with the control-plane topology flag indicating an externally hosted
control plane, the pass fails fast with the explicit error and produces no
rollout decision. -/
theorem external_control_plane_fails_fast (cmp : String → String → VersionDelta)
    (serviceNetwork : List String)
    (existingNode existingMaster prePuller : Option DaemonSet)
    (releaseVersion : String) :
    renderOVNKDecision cmp true serviceNetwork existingNode existingMaster
        prePuller releaseVersion =
      Except.error "Unable to render OVN in a cluster with an external control plane" :=
  rfl

/-- C10: the derived IP-family mode is dual-stack exactly when the service
network has exactly two entries; every other count yields single-stack. -/
theorem ip_family_mode_from_service_network (serviceNetwork : List String) :
    (ipFamilyModeOf serviceNetwork = IPFamilyDualStack ↔ serviceNetwork.length = 2) ∧
    (serviceNetwork.length ≠ 2 → ipFamilyModeOf serviceNetwork = IPFamilySingleStack) := by
  unfold ipFamilyModeOf
  by_cases h : serviceNetwork.length = 2 <;>
    simp [h, IPFamilyDualStack, IPFamilySingleStack]

/-- Witness for C10: two service networks give dual-stack; one gives
single-stack. -/
theorem ip_family_mode_from_service_network_witness :
    ipFamilyModeOf ["10.0.0.0/16", "fd00::/64"] = IPFamilyDualStack ∧
    ipFamilyModeOf ["10.0.0.0/16"] = IPFamilySingleStack :=
  ⟨(ip_family_mode_from_service_network ["10.0.0.0/16", "fd00::/64"]).1.mpr rfl,
   (ip_family_mode_from_service_network ["10.0.0.0/16"]).2 (by decide)⟩

/-- The owning configuration object (`operv1.Network`) as the election step
sees it: its annotation map (which `GetAnnotations` may report as nil,
modelled as `none`) and, for frame reasoning, all of its other fields
abstracted as a value of an arbitrary type. -/
structure NetworkConf (α : Type) where
  annotations : Option (List (String × String))
  rest : α
deriving DecidableEq, Repr

/-- Go two-result map indexing on a possibly nil `map[string]string`. -/
def confLookup (annos : Option (List (String × String))) (key : String) : Option String :=
  annos.bind (fun m => m.lookup key)

/-- Go map assignment `m[k] = v` on an association list: replace the binding
of `k` if present, append it otherwise. -/
def mapSet (m : List (String × String)) (key value : String) : List (String × String) :=
  match m with
  | [] => [(key, value)]
  | (k0, v0) :: restm =>
    if k0 == key then (key, value) :: restm else (k0, v0) :: mapSet restm key value

theorem lookup_mapSet (m : List (String × String)) (k v : String) :
    (mapSet m k v).lookup k = some v := by
  induction m with
  | nil => simp [mapSet, List.lookup]
  | cons hd tl ih =>
    obtain ⟨k0, v0⟩ := hd
    by_cases h : k0 = k
    · subst h
      simp [mapSet, List.lookup]
    · have h1 : (k0 == k) = false := beq_eq_false_iff_ne.mpr h
      have h2 : (k == k0) = false := beq_eq_false_iff_ne.mpr (fun he => h he.symm)
      simp [mapSet, h1, List.lookup, h2, ih]

/-- Embeds `currentInitiatorExists` (ovn_kubernetes.go lines 782-789). -/
def currentInitiatorExists (ovnMasterIPs : List String) (configInitiator : String) : Bool :=
  ovnMasterIPs.any (fun masterIP => masterIP == configInitiator)

theorem currentInitiatorExists_iff (ovnMasterIPs : List String) (configInitiator : String) :
    currentInitiatorExists ovnMasterIPs configInitiator = true ↔
      configInitiator ∈ ovnMasterIPs := by
  simp [currentInitiatorExists, List.any_eq_true, beq_iff_eq]

/-- The re-election branch of `bootstrapOVN` (ovn_kubernetes.go lines
654-662): take the first of the sorted member addresses as the new initiator
and persist it as the annotation (creating the annotation map if it was nil).
The Go indexes `ovnMasterIPs[0]`, which panics on an empty slice; that branch
is modelled as `none`. -/
def bootstrapReelectInitiator {α : Type} (conf : NetworkConf α)
    (ovnMasterIPs : List String) : Option (String × NetworkConf α) :=
  match ovnMasterIPs with
  | [] => none
  | ip0 :: _ =>
    let newAnnos :=
      match conf.annotations with
      | none => [(raftClusterInitiatorKey, ip0)]
      | some m => mapSet m raftClusterInitiatorKey ip0
    some (ip0, { conf with annotations := some newAnnos })

/-- The initiator-election step of `bootstrapOVN` (ovn_kubernetes.go lines
649-663): keep the persisted initiator if it names a current member,
otherwise re-elect. Returns the chosen initiator and the (possibly updated)
configuration object. -/
def bootstrapElectInitiator {α : Type} (conf : NetworkConf α)
    (ovnMasterIPs : List String) : Option (String × NetworkConf α) :=
  match confLookup conf.annotations raftClusterInitiatorKey with
  | some cInitiator =>
    if currentInitiatorExists ovnMasterIPs cInitiator then
      some (cInitiator, conf)
    else
      bootstrapReelectInitiator conf ovnMasterIPs
  | none => bootstrapReelectInitiator conf ovnMasterIPs

theorem bootstrapReelectInitiator_cons {α : Type} (conf : NetworkConf α)
    (ip0 : String) (restIPs : List String) :
    ∃ conf2 : NetworkConf α,
      bootstrapReelectInitiator conf (ip0 :: restIPs) = some (ip0, conf2) ∧
      confLookup conf2.annotations raftClusterInitiatorKey = some ip0 ∧
      conf2.rest = conf.rest := by
  cases ha : conf.annotations with
  | none =>
    refine ⟨{ conf with annotations := some [(raftClusterInitiatorKey, ip0)] }, ?_, ?_, rfl⟩
    · simp [bootstrapReelectInitiator, ha]
    · simp [confLookup, List.lookup]
  | some m =>
    refine ⟨{ conf with annotations := some (mapSet m raftClusterInitiatorKey ip0) }, ?_, ?_, rfl⟩
    · simp [bootstrapReelectInitiator, ha]
    · simp [confLookup, lookup_mapSet]

/-- C5: initiator election is stable and deterministic. On a non-empty sorted
member list: a persisted initiator naming a current member is kept with the
configuration untouched; otherwise the head of the sorted list — the
lexicographically smallest member — is elected and persisted; and the
election is idempotent, so a second pass over an unchanged member set returns
the same initiator and configuration (even when the kept initiator is not the
smallest address). -/
theorem initiator_election_stable_and_deterministic {α : Type} (conf : NetworkConf α)
    (ovnMasterIPs : List String) (hne : ovnMasterIPs ≠ [])
    (hsorted : List.Sorted (· ≤ ·) ovnMasterIPs) :
    (∀ cInit, confLookup conf.annotations raftClusterInitiatorKey = some cInit →
      cInit ∈ ovnMasterIPs →
      bootstrapElectInitiator conf ovnMasterIPs = some (cInit, conf)) ∧
    ((∀ cInit, confLookup conf.annotations raftClusterInitiatorKey = some cInit →
        cInit ∉ ovnMasterIPs) →
      ∃ newConf : NetworkConf α,
        bootstrapElectInitiator conf ovnMasterIPs = some (ovnMasterIPs.head hne, newConf) ∧
        (∀ x ∈ ovnMasterIPs, ovnMasterIPs.head hne ≤ x) ∧
        confLookup newConf.annotations raftClusterInitiatorKey =
          some (ovnMasterIPs.head hne)) ∧
    (∀ (init : String) (conf2 : NetworkConf α),
      bootstrapElectInitiator conf ovnMasterIPs = some (init, conf2) →
      bootstrapElectInitiator conf2 ovnMasterIPs = some (init, conf2)) := by
  obtain ⟨ip0, restIPs, rfl⟩ := List.exists_cons_of_ne_nil hne
  have hmin : ∀ x ∈ ip0 :: restIPs, ip0 ≤ x := by
    intro x hx
    rcases List.mem_cons.mp hx with rfl | hx
    · exact le_refl x
    · exact (List.sorted_cons.mp hsorted).1 x hx
  refine ⟨?_, ?_, ?_⟩
  · intro cInit hl hm
    simp [bootstrapElectInitiator, hl, (currentInitiatorExists_iff _ _).mpr hm]
  · intro hnot
    obtain ⟨conf2, hre, hlook, _⟩ := bootstrapReelectInitiator_cons conf ip0 restIPs
    refine ⟨conf2, ?_, by simpa using hmin, by simpa using hlook⟩
    cases hl : confLookup conf.annotations raftClusterInitiatorKey with
    | none => simpa [bootstrapElectInitiator, hl] using hre
    | some c =>
      have hex : currentInitiatorExists (ip0 :: restIPs) c = false := by
        rcases h : currentInitiatorExists (ip0 :: restIPs) c with _ | _
        · rfl
        · exact absurd ((currentInitiatorExists_iff _ _).mp h) (hnot c hl)
      simpa [bootstrapElectInitiator, hl, hex] using hre
  · intro init conf2 h
    have hstep : ∀ (hyp : bootstrapReelectInitiator conf (ip0 :: restIPs) = some (init, conf2)),
        bootstrapElectInitiator conf2 (ip0 :: restIPs) = some (init, conf2) := by
      intro hyp
      obtain ⟨conf3, hre, hlook, _⟩ := bootstrapReelectInitiator_cons conf ip0 restIPs
      rw [hre] at hyp
      have hpair : (ip0, conf3) = (init, conf2) := Option.some.inj hyp
      have hinit : ip0 = init := congrArg Prod.fst hpair
      have hconf : conf3 = conf2 := congrArg Prod.snd hpair
      subst hinit
      subst hconf
      have hmem : ip0 ∈ ip0 :: restIPs := List.mem_cons_self _ _
      simp [bootstrapElectInitiator, hlook, (currentInitiatorExists_iff _ _).mpr hmem]
    rcases hl : confLookup conf.annotations raftClusterInitiatorKey with _ | c
    · rw [bootstrapElectInitiator, hl] at h
      exact hstep h
    · rcases hex : currentInitiatorExists (ip0 :: restIPs) c with _ | _
      · rw [bootstrapElectInitiator, hl] at h
        simp only [hex, Bool.false_eq_true, if_false] at h
        exact hstep h
      · rw [bootstrapElectInitiator, hl] at h
        simp only [hex, if_true] at h
        obtain ⟨rfl, rfl⟩ : c = init ∧ conf = conf2 := by
          simpa [Prod.ext_iff] using h
        simp [bootstrapElectInitiator, hl, hex]

/-- Witness for C5: members ["10.0.0.1", "10.0.0.2"] with persisted initiator
"10.0.0.2" (a member, though not the smallest address): the election keeps it
and leaves the configuration untouched. -/
theorem initiator_election_stable_and_deterministic_witness :
    bootstrapElectInitiator
      (⟨some [("networkoperator.openshift.io/ovn-cluster-initiator", "10.0.0.2")], 7⟩ :
        NetworkConf Nat)
      ["10.0.0.1", "10.0.0.2"] =
      some ("10.0.0.2",
        ⟨some [("networkoperator.openshift.io/ovn-cluster-initiator", "10.0.0.2")], 7⟩) :=
  (initiator_election_stable_and_deterministic
      (⟨some [("networkoperator.openshift.io/ovn-cluster-initiator", "10.0.0.2")], 7⟩ :
        NetworkConf Nat)
      ["10.0.0.1", "10.0.0.2"] (by decide)
      (by simp [List.sorted_cons]; decide)).1
    "10.0.0.2" (by decide) (by decide)

/-- C9: when the persisted initiator annotation names a current member, the
election keeps it and returns the configuration object itself — annotations
and all other fields unchanged; only the re-election branch writes. -/
theorem initiator_election_frame {α : Type} (conf : NetworkConf α)
    (ovnMasterIPs : List String) (cInit : String)
    (hl : confLookup conf.annotations raftClusterInitiatorKey = some cInit)
    (hm : cInit ∈ ovnMasterIPs) :
    bootstrapElectInitiator conf ovnMasterIPs = some (cInit, conf) := by
  simp [bootstrapElectInitiator, hl, (currentInitiatorExists_iff _ _).mpr hm]

/-- Witness for C9: a configuration carrying extra annotations and another
field comes back identical when the persisted initiator is still a member. -/
theorem initiator_election_frame_witness :
    bootstrapElectInitiator
      (⟨some [("other", "x"),
              ("networkoperator.openshift.io/ovn-cluster-initiator", "10.0.0.1")], 3⟩ :
        NetworkConf Nat)
      ["10.0.0.1", "10.0.0.9"] =
      some ("10.0.0.1",
        ⟨some [("other", "x"),
               ("networkoperator.openshift.io/ovn-cluster-initiator", "10.0.0.1")], 3⟩) :=
  initiator_election_frame
    (⟨some [("other", "x"),
            ("networkoperator.openshift.io/ovn-cluster-initiator", "10.0.0.1")], 3⟩ :
      NetworkConf Nat)
    ["10.0.0.1", "10.0.0.9"] "10.0.0.1" (by decide) (by decide)

/-- Embeds `listenDualStack` (ovn_kubernetes.go lines 799-807). -/
def listenDualStack (masterIP : String) : String :=
  if masterIP.contains ':' then ":[::]" else ""

/-- The rendering access `listenDualStack(bootstrapResult.OVN.MasterIPs[0])`
(ovn_kubernetes.go line 133): Go slice indexing panics on an empty slice,
modelled as `none`. -/
def renderListenDualStack (masterIPs : List String) : Option String :=
  match masterIPs with
  | [] => none
  | masterIP :: _ => some (listenDualStack masterIP)

/-- C8: with at least one discovered member address, both the election's
`ovnMasterIPs[0]` access and the renderer's `MasterIPs[0]` access are defined
(the out-of-bounds branch is unreachable); on an empty member list the
election (whose re-election branch indexes the list) and the renderer are
undefined. -/
theorem election_and_render_need_nonempty_members {α : Type} (conf : NetworkConf α)
    (ovnMasterIPs : List String) (hne : ovnMasterIPs ≠ []) :
    (bootstrapElectInitiator conf ovnMasterIPs).isSome = true ∧
    (renderListenDualStack ovnMasterIPs).isSome = true ∧
    bootstrapElectInitiator conf ([] : List String) = none ∧
    renderListenDualStack ([] : List String) = none := by
  obtain ⟨ip0, restIPs, rfl⟩ := List.exists_cons_of_ne_nil hne
  refine ⟨?_, rfl, ?_, rfl⟩
  · cases hl : confLookup conf.annotations raftClusterInitiatorKey with
    | none => simp [bootstrapElectInitiator, hl, bootstrapReelectInitiator]
    | some c =>
      cases hex : currentInitiatorExists (ip0 :: restIPs) c <;>
        simp [bootstrapElectInitiator, hl, hex, bootstrapReelectInitiator]
  · cases hl : confLookup conf.annotations raftClusterInitiatorKey with
    | none => simp [bootstrapElectInitiator, hl, bootstrapReelectInitiator]
    | some c => simp [bootstrapElectInitiator, hl, currentInitiatorExists,
        bootstrapReelectInitiator]

/-- Witness for C8: a single discovered member suffices for both accesses. -/
theorem election_and_render_need_nonempty_members_witness :
    (bootstrapElectInitiator (⟨none, 0⟩ : NetworkConf Nat) ["10.0.0.1"]).isSome = true ∧
    (renderListenDualStack ["10.0.0.1"]).isSome = true :=
  ⟨(election_and_render_need_nonempty_members (⟨none, 0⟩ : NetworkConf Nat)
      ["10.0.0.1"] (by decide)).1,
   (election_and_render_need_nonempty_members (⟨none, 0⟩ : NetworkConf Nat)
      ["10.0.0.1"] (by decide)).2.1⟩

/-- Initial value of the process-wide discovery deadline
`OVN_MASTER_DISCOVERY_TIMEOUT` (ovn_kubernetes.go line 53), in seconds. -/
def OVN_MASTER_DISCOVERY_TIMEOUT_INITIAL : Int := 250

/-- Constant `OVN_MASTER_DISCOVERY_BACKOFF` (ovn_kubernetes.go line 44), in seconds. -/
def OVN_MASTER_DISCOVERY_BACKOFF : Int := 120

/-- The adaptive-deadline update performed when the discovery poll times out
(ovn_kubernetes.go lines 621-623): shrink the process-wide deadline by the
backoff, but only when the result stays positive. -/
def discoveryTimeoutAfterTimeout (timeout : Int) : Int :=
  if timeout - OVN_MASTER_DISCOVERY_BACKOFF > 0 then
    timeout - OVN_MASTER_DISCOVERY_BACKOFF
  else
    timeout

/-- The three ways the discovery poll of `bootstrapOVN` can end: the member
count reached the desired replica count, the deadline elapsed first
(`wait.ErrWaitTimeout`), or listing the node directory failed with some other
error. -/
inductive DiscoveryOutcome where
  | reachedReplicaCount
  | deadlineExceeded
  | listError (msg : String)
deriving DecidableEq, Repr

/-- How one bootstrap call handles the discovery poll's result
(ovn_kubernetes.go lines 596-626): on quorum, proceed with the deadline
untouched; on deadline exceeded, log, proceed with whatever members were
found, and shrink the process-wide deadline for subsequent calls; on any
other node-directory error, fail the bootstrap. Returns the discovered
members together with the deadline for subsequent calls, or the error. -/
def bootstrapDiscoveryStep (timeout : Int) (outcome : DiscoveryOutcome)
    (foundMembers : List String) : Except String (List String × Int) :=
  match outcome with
  | .reachedReplicaCount => .ok (foundMembers, timeout)
  | .deadlineExceeded => .ok (foundMembers, discoveryTimeoutAfterTimeout timeout)
  | .listError msg => .error ("Unable to bootstrap OVN, err: " ++ msg)

/-- C6: the adaptive deadline starts at 250 seconds; a call that exceeds the
deadline does not fail and proceeds with the members found, shrinking the
deadline by exactly 120 seconds only when that leaves a positive value, so
from 250 the successive deadlines are 250, 130, 10, 10, ... and a positive
deadline stays positive; a non-timeout listing error fails the bootstrap. -/
theorem adaptive_discovery_deadline (timeout : Int) (foundMembers : List String)
    (msg : String) :
    OVN_MASTER_DISCOVERY_TIMEOUT_INITIAL = 250 ∧
    bootstrapDiscoveryStep timeout .deadlineExceeded foundMembers =
      Except.ok (foundMembers, if timeout - 120 > 0 then timeout - 120 else timeout) ∧
    (timeout > 0 → discoveryTimeoutAfterTimeout timeout > 0) ∧
    discoveryTimeoutAfterTimeout 250 = 130 ∧
    discoveryTimeoutAfterTimeout 130 = 10 ∧
    discoveryTimeoutAfterTimeout 10 = 10 ∧
    (∀ n : Nat, n ≥ 2 →
      discoveryTimeoutAfterTimeout^[n] OVN_MASTER_DISCOVERY_TIMEOUT_INITIAL = 10) ∧
    bootstrapDiscoveryStep timeout (.listError msg) foundMembers =
      Except.error ("Unable to bootstrap OVN, err: " ++ msg) := by
  refine ⟨rfl, rfl, ?_, by decide, by decide, by decide, ?_, rfl⟩
  · intro hpos
    unfold discoveryTimeoutAfterTimeout OVN_MASTER_DISCOVERY_BACKOFF
    split <;> omega
  · intro n hn
    induction n with
    | zero => omega
    | succ k ih =>
      rcases Nat.lt_or_ge k 2 with hk | hk
      · interval_cases k
        · omega
        · show discoveryTimeoutAfterTimeout^[2] OVN_MASTER_DISCOVERY_TIMEOUT_INITIAL = 10
          decide
      · rw [Function.iterate_succ_apply', ih hk]
        decide

/-- Witness for C6: the shrunk deadline after one timeout is still positive,
and from the third bootstrap call on the deadline is pinned at 10 seconds. -/
theorem adaptive_discovery_deadline_witness :
    discoveryTimeoutAfterTimeout 250 > 0 ∧
    discoveryTimeoutAfterTimeout^[3] OVN_MASTER_DISCOVERY_TIMEOUT_INITIAL = 10 :=
  ⟨by
    have h := (adaptive_discovery_deadline 250 [] "").2.2.1 (by decide)
    exact h,
   (adaptive_discovery_deadline 250 [] "").2.2.2.2.2.2.1 3 (by decide)⟩

end OVNK
